import Mathlib

/-!
Shallow embedding of `src/client.py` (foxis/ESPIoTPiro): an MQTT weather-station
client that aggregates topic-tagged readings, persists them to a CSV log, and
optionally plots a bounded rolling window per topic.

Modelling conventions:
* Python strings are `String`; file contents are a `List String` of written
  lines (each line carries its trailing terminator, as `readlines` returns
  them); a file that does not exist is `none : Option (List String)`.
* Python dicts keyed by topic are association lists `List (String × _)`
  (keys are the configured topics, which are distinct in any run).
* `datetime.now()` is an explicit `ts : String` parameter.
* Python exceptions are the `.error` case of `Except PyError`.
* Float values stored in the windowed series are represented by the raw
  string whose `float(...)` parse succeeded; only parse success/failure and
  the identity/order of entries matter to the properties here, not float
  arithmetic.
* `self.lock` discipline: the whole body of `add_reading` and each property
  access run under the single lock, so each such call is one atomic step of
  the embedding.
-/

/-- Python exceptions that the client code can raise: `AttributeError`
(payload: the attribute name involved) and `ValueError` (payload: the string
that failed to parse as a float). -/
inductive PyError where
  | attributeError (name : String)
  | valueError (val : String)
deriving DecidableEq

/-- Side effects emitted by `add_reading`, in execution order: the store
append (line 75), the persistence write (`write_last_reading`, line 83), and
a completed windowed-series update (lines 117–126, which no run ever
completes). -/
inductive Event where
  | append (topic data : String)
  | persist (ts topic : String)
  | visualize (topic : String)
deriving DecidableEq

/-- The two backing fields of the connection state (lines 32–33). -/
inductive PyField where
  | connectedF
  | lastConnectedF
deriving DecidableEq

/-- A Python `property` object restricted to what the client uses: which
backing field its getter reads, and (optionally) which backing field its
setter writes (`none` = no setter installed). -/
structure PyProperty where
  fget : PyField
  fset : Option PyField
deriving DecidableEq

/-- `property(getter)`: a property with the given getter and no setter. -/
def pyProperty (g : PyField) : PyProperty := ⟨g, none⟩

/-- `p.setter(f)`: a copy of the property `p` with its setter replaced by a
function writing the field `f` (Python's `property.setter`). -/
def setterDecorator (p : PyProperty) (f : PyField) : PyProperty :=
  { p with fset := some f }

/-- Lines 50–53: `connected = property(<read _connected>)`. -/
def connectedProp1 : PyProperty := pyProperty PyField.connectedF

/-- Lines 55–58: `@connected.setter def connected` rebinds `connected` to a
property whose setter writes `_connected`. -/
def connectedProp2 : PyProperty := setterDecorator connectedProp1 PyField.connectedF

/-- Lines 60–63: `last_connected = property(<read _last_connected>)`. -/
def lastConnectedProp : PyProperty := pyProperty PyField.lastConnectedF

/-- Lines 65–68: `@last_connected.setter` applied to a function NAMED
`connected` — the class body binds the result to the name `connected`,
overwriting `connectedProp2`.  The resulting property has
`last_connected`'s getter (reads `_last_connected`) and a setter writing
`_last_connected`. -/
def connectedProp3 : PyProperty := setterDecorator lastConnectedProp PyField.lastConnectedF

/-- The final class dictionary of `UserData` after the class body of lines
21–126 executes: `connected` is bound last at lines 65–68 and
`last_connected` at lines 60–63 (never rebound, so it keeps no setter). -/
structure ClassDict where
  connected : PyProperty
  last_connected : PyProperty
deriving DecidableEq

/-- The class dict the source produces: name bindings evaluated in source
order (see `connectedProp1` … `connectedProp3`). -/
def userDataClassDict : ClassDict :=
  { connected := connectedProp3, last_connected := lastConnectedProp }

/-- The mutable state of a `UserData` instance (lines 22–33).  `plots` is
`none` for Python `None`; the value it would hold is irrelevant because no
run ever assigns it (see `plot_reading`). -/
structure UserData where
  topics : List String
  verbose : Bool
  plot : Bool
  max_plot : Nat
  readings : List (String × List String)
  plots : Option Unit
  default_plot : List (String × (List String × List String))
  _connected : Bool
  _last_connected : Bool
deriving DecidableEq

/-- Python list slice `l[-n:]`: for `n = 0` this is `l[0:] = l` (minus zero
is zero), otherwise the last `n` elements (all of `l` when `n ≥ l.length`). -/
def pyTakeLast (n : Nat) (l : List α) : List α :=
  if n = 0 then l else l.drop (l.length - n)

/-- First-match association-list lookup, the model of a Python dict read
(keys are distinct in any state the program builds). -/
def lookupAssoc (k : String) : List (String × β) → Option β
  | [] => none
  | p :: rest => if p.1 = k then some p.2 else lookupAssoc k rest

/-- Update the value at key `k` in place (first match), the model of a
Python dict write to an existing key. -/
def updateAssoc (k : String) (f : β → β) : List (String × β) → List (String × β)
  | [] => []
  | p :: rest => if p.1 = k then (p.1, f p.2) :: rest else p :: updateAssoc k f rest

/-- Line 31: `{topic: [[], []] for topic in topics}` — empty (x, y) series
per configured topic. -/
def defaultPlot (topics : List String) : List (String × (List String × List String)) :=
  topics.map (fun t => (t, (([] : List String), ([] : List String))))

/-- Python `str.split(",")` on the character list of a string. -/
def splitCharsOnComma : List Char → List (List Char)
  | [] => [[]]
  | c :: rest =>
    if c = ',' then [] :: splitCharsOnComma rest
    else
      match splitCharsOnComma rest with
      | [] => [[c]]
      | g :: gs => (c :: g) :: gs

/-- Python `line.split(",")` (line 39): always returns at least one field. -/
def pySplitComma (s : String) : List String :=
  (splitCharsOnComma s.toList).map (fun cs => String.mk cs)

/-- Strip leading and trailing whitespace, as Python `float()` does before
parsing. -/
def pyStrip (cs : List Char) : List Char :=
  ((cs.dropWhile Char.isWhitespace).reverse.dropWhile Char.isWhitespace).reverse

/-- Drop one optional leading sign character. -/
def stripSign : List Char → List Char
  | '+' :: r => r
  | '-' :: r => r
  | r => r

/-- Split off a maximal run of decimal digits. -/
def splitDigits (cs : List Char) : List Char × List Char :=
  (cs.takeWhile Char.isDigit, cs.dropWhile Char.isDigit)

/-- A nonempty all-digit run, for an exponent's digits. -/
def expDigitsOk (cs : List Char) : Bool :=
  !cs.isEmpty && cs.all Char.isDigit

/-- Exponent digits with an optional sign. -/
def expSignedDigits : List Char → Bool
  | '+' :: r => expDigitsOk r
  | '-' :: r => expDigitsOk r
  | r => expDigitsOk r

/-- An optional exponent part: empty, or `e`/`E` followed by optionally
signed digits. -/
def expOk : List Char → Bool
  | [] => true
  | 'e' :: r => expSignedDigits r
  | 'E' :: r => expSignedDigits r
  | _ => false

/-- A decimal mantissa with optional fractional part and exponent; at least
one digit must be present on one side of the point. -/
def mantissaExpOk (cs : List Char) : Bool :=
  let p := splitDigits cs
  match p.2 with
  | '.' :: r2 =>
    let q := splitDigits r2
    (!p.1.isEmpty || !q.1.isEmpty) && expOk q.2
  | r => !p.1.isEmpty && expOk r

/-- Model of CPython `float(s)` acceptance (ignoring digit-group
underscores): optional surrounding whitespace, optional sign, then either a
decimal literal or one of the special words `inf`/`infinity`/`nan`
(case-insensitive).  `true` means `float(s)` succeeds; `false` means it
raises `ValueError`. -/
def pyFloatParses (s : String) : Bool :=
  let cs := stripSign (pyStrip s.toList)
  let low := cs.map Char.toLower
  low == "inf".toList || low == "infinity".toList || low == "nan".toList ||
    mantissaExpOk cs

/-- The inner loop of the startup history load (lines 43–48): for each
`(topic, val)` pair from `zip(header[1:], data[1:])`, if the topic is
configured, append `data[0]` to the x-series and `float(val)` to the
y-series, then re-slice both to the last `max_plot` entries.  A `float`
failure raises `ValueError`, aborting the whole constructor (in the source
the x-append at line 45 has already happened then, but the half-built object
is unobservable because `__init__` never returns). -/
def loadPairs (topics : List String) (maxPlot : Nat) (date : String) :
    List (String × String) → List (String × (List String × List String)) →
      Except PyError (List (String × (List String × List String)))
  | [], dp => .ok dp
  | p :: rest, dp =>
    if p.1 ∈ topics then
      if pyFloatParses p.2 then
        loadPairs topics maxPlot date rest
          (updateAssoc p.1
            (fun xy => (pyTakeLast maxPlot (xy.1 ++ [date]),
                        pyTakeLast maxPlot (xy.2 ++ [p.2]))) dp)
      else .error (PyError.valueError p.2)
    else loadPairs topics maxPlot date rest dp

/-- The per-line step of the history load (lines 38–48, `i > 0` branch):
split the line on commas and run `loadPairs` over the zip of the header tail
with the data tail. -/
def loadLines (topics : List String) (maxPlot : Nat) (header : List String) :
    List String → List (String × (List String × List String)) →
      Except PyError (List (String × (List String × List String)))
  | [], dp => .ok dp
  | line :: rest, dp =>
    match loadPairs topics maxPlot ((pySplitComma line).headD "")
        (header.tail.zip (pySplitComma line).tail) dp with
    | .error e => .error e
    | .ok dp' => loadLines topics maxPlot header rest dp'

/-- The startup Windowed History Loader (lines 35–48): line 0 becomes the
header, every later line is replayed by `loadLines`, starting from the empty
per-topic series. -/
def loadHistory (topics : List String) (maxPlot : Nat) :
    List String → Except PyError (List (String × (List String × List String)))
  | [] => .ok (defaultPlot topics)
  | first :: rest => loadLines topics maxPlot (pySplitComma first) rest (defaultPlot topics)

/-- `UserData.__init__` (lines 22–33) without the history-load branch (the
state when `plot` is off or no prior log exists). -/
def UserData.init (topics : List String) (verbose plot : Bool) (maxPlot : Nat) : UserData :=
  { topics := topics, verbose := verbose, plot := plot, max_plot := maxPlot,
    readings := topics.map (fun t => (t, ([] : List String))),
    plots := none, default_plot := defaultPlot topics,
    _connected := false, _last_connected := false }

/-- Full `UserData.__init__` (lines 22–48): when `plot` is set and the log
file exists, `default_plot` is seeded by the history loader (whose
`ValueError` aborts construction). -/
def UserData.initWithFile (topics : List String) (verbose plot : Bool)
    (maxPlot : Nat) (file : Option (List String)) : Except PyError UserData :=
  match file, plot with
  | some lines, true =>
    (loadHistory topics maxPlot lines).map
      (fun dp => { UserData.init topics verbose plot maxPlot with default_plot := dp })
  | _, _ => .ok (UserData.init topics verbose plot maxPlot)

/-- Read a backing field of the connection state. -/
def readField (st : UserData) : PyField → Bool
  | .connectedF => st._connected
  | .lastConnectedF => st._last_connected

/-- Write a backing field of the connection state. -/
def writeField (st : UserData) (f : PyField) (v : Bool) : UserData :=
  match f with
  | .connectedF => { st with _connected := v }
  | .lastConnectedF => { st with _last_connected := v }

/-- `userdata.connected` (attribute read): dispatches through the final
class dict, so it reads the getter field of `connectedProp3`. -/
def getConnected (st : UserData) : Bool :=
  readField st userDataClassDict.connected.fget

/-- `userdata.last_connected` (attribute read). -/
def getLastConnected (st : UserData) : Bool :=
  readField st userDataClassDict.last_connected.fget

/-- Assign through a property: `AttributeError` when it has no setter (the
payload names the attribute being assigned). -/
def setProp (attr : String) (p : PyProperty) (st : UserData) (v : Bool) :
    Except PyError UserData :=
  match p.fset with
  | none => .error (PyError.attributeError attr)
  | some f => .ok (writeField st f v)

/-- `userdata.connected = v` (attribute write). -/
def setConnected (st : UserData) (v : Bool) : Except PyError UserData :=
  setProp "connected" userDataClassDict.connected st v

/-- `userdata.last_connected = v` (attribute write). -/
def setLastConnected (st : UserData) (v : Bool) : Except PyError UserData :=
  setProp "last_connected" userDataClassDict.last_connected st v

/-- `on_connect` (lines 134–140): for `rc = 0`, subscribe to every
configured topic, then run `userdata.connected = True` and
`userdata.last_connected = True`.  Returns the topics subscribed, the state
after the statements that executed, and the exception that escaped (if
any); an exception aborts the remaining statements. -/
def on_connect (rc : Nat) (st : UserData) : List String × UserData × Option PyError :=
  if rc = 0 then
    match setConnected st true with
    | .error e => (st.topics, st, some e)
    | .ok st1 =>
      match setLastConnected st1 true with
      | .error e => (st.topics, st1, some e)
      | .ok st2 => (st.topics, st2, none)
  else ([], st, none)

/-- `on_disconnect` (lines 129–131): `userdata.connected = False`. -/
def on_disconnect (st : UserData) : UserData × Option PyError :=
  match setConnected st false with
  | .error e => (st, some e)
  | .ok st' => (st', none)

/-- The reconnect check of the active-mode loop (lines 172–174): when
`not userdata.connected and userdata.last_connected`, run
`userdata.last_connected = False` and then call `client.connect`.  Returns
the state, the number of connect attempts issued by this iteration, and the
exception that escaped (if any). -/
def reconnectCheck (st : UserData) : UserData × Nat × Option PyError :=
  if !getConnected st && getLastConnected st then
    match setLastConnected st false with
    | .error e => (st, 0, some e)
    | .ok st' => (st', 1, none)
  else (st, 0, none)

/-- Total connect attempts issued by `n` iterations of the active-mode
reconnect check, from state `st` (no delivery events interleaved). -/
def pollAttempts : Nat → UserData → Nat
  | 0, _ => 0
  | n + 1, st =>
    let r := reconnectCheck st
    r.2.1 + pollAttempts n r.1

/-- The persistence core of `write_last_reading` (lines 88–95): build the
line `ts,topic,data` plus terminator; if the file does not exist, write the
header line first.  Returns the resulting file content. -/
def appendRecord (ts topic data : String) (file : Option (List String)) : List String :=
  let line := ts ++ "," ++ topic ++ "," ++ data ++ "\n"
  match file with
  | none => ["date,topic,data" ++ "\n", line]
  | some ls => ls ++ [line]

/-- `write_last_reading` (lines 85–95): persists `readings[topic][-1]`.  The
only caller (`add_reading`) has just appended to `readings[topic]`, so the
key is present with a nonempty list and the `""` defaults (which in Python
would be `KeyError`/`IndexError`) are dead. -/
def write_last_reading (ts topic : String) (st : UserData)
    (file : Option (List String)) : List String :=
  appendRecord ts topic (((lookupAssoc topic st.readings).bind List.getLast?).getD "") file

/-- `plot_reading` (lines 110–126).  For `data = "nan"` it returns at once
(the windowed update is skipped).  Otherwise `self.plots` is `None` in every
reachable state, so line 115 evaluates `self.stations` — an attribute never
assigned anywhere in the class — and raises `AttributeError`.  (Were
`self.plots` somehow set, the bare name `station` at line 117 is unbound and
raises `NameError`, modelled as an `AttributeError` on `station` for
uniformity: either way the update never completes.) -/
def plot_reading (topic data : String) (st : UserData) : Except PyError UserData :=
  if data = "nan" then .ok st
  else
    match st.plots with
    | none => .error (PyError.attributeError "stations")
    | some _ => .error (PyError.attributeError "station")

/-- `add_reading` (lines 70–83), whose whole body runs under `self.lock`:
return unchanged if the topic is unconfigured; otherwise append to the
store, then (if `plot`) run `plot_reading` — whose exception aborts the
call, skipping persistence — then persist via `write_last_reading`.
Returns (state, file, emitted events in order, escaped exception). -/
def add_reading (topic data ts : String) (st : UserData) (file : Option (List String)) :
    UserData × Option (List String) × List Event × Option PyError :=
  if topic ∈ st.readings.map Prod.fst then
    let st1 := { st with readings := updateAssoc topic (fun l => l ++ [data]) st.readings }
    if st1.plot then
      match plot_reading topic data st1 with
      | .error e => (st1, file, [Event.append topic data], some e)
      | .ok st2 =>
        (st2, some (write_last_reading ts topic st2 file),
         [Event.append topic data, Event.persist ts topic], none)
    else
      (st1, some (write_last_reading ts topic st1 file),
       [Event.append topic data, Event.persist ts topic], none)
  else (st, file, [], none)

/-- `on_message` (lines 143–148): decode the payload (modelled as the given
string) and call `add_reading`; any exception is caught and printed, so
`on_message` always returns, keeping whatever effects happened before the
exception. -/
def on_message (topic payload ts : String) (st : UserData)
    (file : Option (List String)) : UserData × Option (List String) :=
  let r := add_reading topic payload ts st file
  (r.1, r.2.1)

/-- Run a list of `add_reading` calls (each call a `(topic, data, ts)`
triple) against a state and file, in the given global completion order. -/
def runCalls : List (String × String × String) → UserData × Option (List String) →
    UserData × Option (List String)
  | [], s => s
  | c :: rest, s =>
    let r := add_reading c.1 c.2.1 c.2.2 s.1 s.2
    runCalls rest (r.1, r.2.1)

/-- Run a list of persistence appends (each a `(ts, topic, data)` triple)
against a file state. -/
def runAppends : List (String × String × String) → Option (List String) →
    Option (List String)
  | [], file => file
  | c :: rest, file => runAppends rest (some (appendRecord c.1 c.2.1 c.2.2 file))

/-- The data line `appendRecord` writes for one call. -/
def recordLine (c : String × String × String) : String :=
  c.1 ++ "," ++ c.2.1 ++ "," ++ c.2.2 ++ "\n"

/-! Helper lemmas shared by the claim theorems. -/

theorem lookupAssoc_updateAssoc_self (k : String) (f : β → β) (l : List (String × β)) :
    lookupAssoc k (updateAssoc k f l) = (lookupAssoc k l).map f := by
  induction l with
  | nil => rfl
  | cons p rest ih =>
    by_cases h : p.1 = k
    · simp [updateAssoc, lookupAssoc, h]
    · simp [updateAssoc, lookupAssoc, h, ih]

theorem lookupAssoc_updateAssoc_ne {k' k : String} (h : k' ≠ k) (f : β → β)
    (l : List (String × β)) :
    lookupAssoc k' (updateAssoc k f l) = lookupAssoc k' l := by
  have h2 : ¬ k = k' := fun he => h he.symm
  induction l with
  | nil => rfl
  | cons p rest ih =>
    by_cases hp : p.1 = k
    · simp [updateAssoc, lookupAssoc, hp, h2]
    · by_cases hp' : p.1 = k'
      · simp [updateAssoc, lookupAssoc, hp, hp', h]
      · simp [updateAssoc, lookupAssoc, hp, hp', ih]

theorem mem_keys_of_lookupAssoc {k : String} {l : List (String × β)} {v : β}
    (h : lookupAssoc k l = some v) : k ∈ l.map Prod.fst := by
  induction l with
  | nil => simp [lookupAssoc] at h
  | cons p rest ih =>
    by_cases hp : p.1 = k
    · simp [hp]
    · simp only [lookupAssoc, hp, if_false] at h
      simp [ih h]

theorem mem_updateAssoc {p : String × β} {k : String} {f : β → β} {l : List (String × β)}
    (h : p ∈ updateAssoc k f l) : p ∈ l ∨ ∃ v, p = (k, f v) := by
  induction l with
  | nil => simp [updateAssoc] at h
  | cons q rest ih =>
    by_cases hq : q.1 = k
    · simp only [updateAssoc, hq, if_true, List.mem_cons] at h
      rcases h with h | h
      · right; exact ⟨q.2, by rw [h]⟩
      · left; simp [h]
    · simp only [updateAssoc, hq, if_false, List.mem_cons] at h
      rcases h with h | h
      · left; simp [h]
      · rcases ih h with h' | h'
        · left; simp [h']
        · right; exact h'

theorem pyTakeLast_length_le {n : Nat} (hn : 0 < n) (l : List α) :
    (pyTakeLast n l).length ≤ n := by
  unfold pyTakeLast
  rw [if_neg (Nat.pos_iff_ne_zero.mp hn), List.length_drop]
  omega

theorem pyTakeLast_full {n : Nat} (hn : 0 < n) (l : List α) (a : α) (hl : l.length = n) :
    pyTakeLast n (l ++ [a]) = l.tail ++ [a] := by
  unfold pyTakeLast
  rw [if_neg (Nat.pos_iff_ne_zero.mp hn)]
  have h1 : (l ++ [a]).length - n = 1 := by
    rw [List.length_append, List.length_singleton, hl]
    omega
  rw [h1, List.drop_one]
  cases l with
  | nil => exfalso; simp at hl; omega
  | cons x xs => simp

theorem plot_reading_ok_eq {topic data : String} {st st' : UserData}
    (h : plot_reading topic data st = .ok st') : st' = st := by
  unfold plot_reading at h
  by_cases hd : data = "nan"
  · rw [if_pos hd] at h
    exact (Except.ok.inj h).symm
  · rw [if_neg hd] at h
    cases hp : st.plots with
    | none => rw [hp] at h; cases h
    | some u => rw [hp] at h; cases h

theorem add_reading_readings (topic data ts : String) (st : UserData)
    (file : Option (List String)) :
    (add_reading topic data ts st file).1.readings =
      if topic ∈ st.readings.map Prod.fst then
        updateAssoc topic (fun l => l ++ [data]) st.readings
      else st.readings := by
  simp only [add_reading]
  split
  · split
    · split
      · rfl
      · next st2 hpr => rw [plot_reading_ok_eq hpr]
    · rfl
  · rfl

theorem add_reading_skip {topic : String} (data ts : String) {st : UserData}
    (file : Option (List String)) (h : topic ∉ st.readings.map Prod.fst) :
    add_reading topic data ts st file = (st, file, [], none) := by
  simp [add_reading, h]

theorem defaultPlot_mem {topics : List String}
    {p : String × (List String × List String)} (h : p ∈ defaultPlot topics) :
    p.2.1 = [] ∧ p.2.2 = [] := by
  simp only [defaultPlot, List.mem_map] at h
  obtain ⟨t, _, ht⟩ := h
  rw [← ht]
  exact ⟨rfl, rfl⟩

theorem loadPairs_bound {topics : List String} {N : Nat} (hN : 0 < N) (date : String) :
    ∀ (pairs : List (String × String)) (dp dp' : List (String × (List String × List String))),
      (∀ p ∈ dp, p.2.1.length ≤ N ∧ p.2.2.length ≤ N) →
      loadPairs topics N date pairs dp = .ok dp' →
      ∀ p ∈ dp', p.2.1.length ≤ N ∧ p.2.2.length ≤ N := by
  intro pairs
  induction pairs with
  | nil =>
    intro dp dp' hdp h
    unfold loadPairs at h
    rw [← Except.ok.inj h]
    exact hdp
  | cons q rest ih =>
    intro dp dp' hdp h
    unfold loadPairs at h
    by_cases hq : q.1 ∈ topics
    · rw [if_pos hq] at h
      by_cases hf : pyFloatParses q.2 = true
      · rw [if_pos hf] at h
        refine ih _ dp' ?_ h
        intro p hp
        rcases mem_updateAssoc hp with hmem | ⟨v, hv⟩
        · exact hdp p hmem
        · rw [hv]
          exact ⟨pyTakeLast_length_le hN _, pyTakeLast_length_le hN _⟩
      · rw [if_neg hf] at h
        cases h
    · rw [if_neg hq] at h
      exact ih _ _ hdp h

theorem loadLines_bound {topics : List String} {N : Nat} (hN : 0 < N)
    (header : List String) :
    ∀ (lines : List String) (dp dp' : List (String × (List String × List String))),
      (∀ p ∈ dp, p.2.1.length ≤ N ∧ p.2.2.length ≤ N) →
      loadLines topics N header lines dp = .ok dp' →
      ∀ p ∈ dp', p.2.1.length ≤ N ∧ p.2.2.length ≤ N := by
  intro lines
  induction lines with
  | nil =>
    intro dp dp' hdp h
    unfold loadLines at h
    rw [← Except.ok.inj h]
    exact hdp
  | cons line rest ih =>
    intro dp dp' hdp h
    unfold loadLines at h
    cases hlp : loadPairs topics N ((pySplitComma line).headD "")
        (header.tail.zip (pySplitComma line).tail) dp with
    | error e => rw [hlp] at h; cases h
    | ok dpm =>
      rw [hlp] at h
      exact ih dpm dp' (loadPairs_bound hN _ _ dp dpm hdp hlp) h

theorem runAppends_some (calls : List (String × String × String)) (ls : List String) :
    runAppends calls (some ls) = some (ls ++ calls.map recordLine) := by
  induction calls generalizing ls with
  | nil => simp [runAppends]
  | cons c rest ih =>
    simp [runAppends, appendRecord, recordLine, ih, List.append_assoc]

/-! The claim theorems. -/

/-- C1: the spec says a connect ack with result code 0 subscribes to every
configured topic and then sets `connected = true` and `hadSession = true`,
while a non-zero code changes neither flag and subscribes to nothing.  The
code instead raises `AttributeError` at `userdata.last_connected = True`
(the property has no setter) after the subscriptions; moreover the
`connected` assignment writes `_last_connected`, so `_connected` is never
set to `true`.  The non-zero branch behaves as claimed. -/
theorem on_connect_behavior (st : UserData) (rc : Nat) (hrc : rc ≠ 0) :
    on_connect 0 st
        = (st.topics, { st with _last_connected := true },
           some (PyError.attributeError "last_connected")) ∧
    ((on_connect 0 st).2.1)._connected = st._connected ∧
    on_connect rc st = ([], st, none) := by
  refine ⟨rfl, rfl, ?_⟩
  simp [on_connect, hrc]

/-- Witness for `on_connect_behavior`: concrete evaluation at `rc = 1` and
(for the failing branch) at `rc = 0` on a freshly initialised state. -/
theorem on_connect_behavior_witness :
    on_connect 1 (UserData.init ["stationA/temp"] false false 3)
        = ([], UserData.init ["stationA/temp"] false false 3, none) ∧
    (on_connect 0 (UserData.init ["stationA/temp"] false false 3)).2.2
        = some (PyError.attributeError "last_connected") :=
  ⟨(on_connect_behavior (UserData.init ["stationA/temp"] false false 3) 1
      (by decide)).2.2,
   by rw [(on_connect_behavior (UserData.init ["stationA/temp"] false false 3) 1
      (by decide)).1]⟩

/-- C2: the spec says the active-mode loop issues exactly one reconnect per
(connected then disconnected) episode.  In the code both `connected` and
`last_connected` read the same backing field `_last_connected`, so the guard
`not connected and last_connected` is false in every state: the reconnect
check never changes state, never raises, and never issues a connect attempt
— zero attempts over any number of poll iterations, not one.  Moreover
`on_disconnect` clears `_last_connected` (its `connected = False` write
lands there), erasing the session marker on disconnect. -/
theorem reconnect_never_fires :
    (∀ st : UserData, reconnectCheck st = (st, 0, none)) ∧
    (∀ (n : Nat) (st : UserData), pollAttempts n st = 0) ∧
    (∀ st : UserData, on_disconnect st = ({ st with _last_connected := false }, none)) := by
  have h1 : ∀ st : UserData, reconnectCheck st = (st, 0, none) := by
    intro st
    unfold reconnectCheck
    have hg : (!getConnected st && getLastConnected st) = false := by
      show (!st._last_connected && st._last_connected) = false
      cases h : st._last_connected <;> rfl
    rw [hg]
    rfl
  have h2 : ∀ (n : Nat) (st : UserData), pollAttempts n st = 0 := by
    intro n
    induction n with
    | zero => intro st; rfl
    | succ m ih =>
      intro st
      show (reconnectCheck st).2.1 + pollAttempts m (reconnectCheck st).1 = 0
      rw [h1 st]
      simpa using ih st
  exact ⟨h1, h2, fun st => rfl⟩

/-- C3 counterexample: with visualization enabled and a numeric value, a
`add_reading` call on a configured topic appends to the store and then
aborts with `AttributeError` inside the windowed update — nothing is
persisted, so the claimed ordered unit (append, then persist, then
visualize) does not occur. -/
theorem add_reading_order_counterexample :
    add_reading "stationA/temp" "21.5" "t0"
        (UserData.init ["stationA/temp"] false true 3) none
      = ({ UserData.init ["stationA/temp"] false true 3 with
            readings := [("stationA/temp", ["21.5"])] }, none,
         [Event.append "stationA/temp" "21.5"],
         some (PyError.attributeError "stations")) ∧
    [Event.append "stationA/temp" "21.5"]
      ≠ [Event.append "stationA/temp" "21.5",
         Event.persist "t0" "stationA/temp",
         Event.visualize "stationA/temp"] :=
  ⟨rfl, by decide⟩

/-- C3 amended: on a configured topic `add_reading` (whose whole body holds
the lock) first appends to the store; with visualization disabled it then
persists the reading; with visualization enabled the windowed-series update
is attempted BEFORE persistence — for the literal value `"nan"` the update
is skipped and persistence follows, and for every other value the update
raises, aborting the call so nothing is persisted. -/
theorem add_reading_effects (topic data ts : String) (st : UserData)
    (file : Option (List String)) (h : topic ∈ st.readings.map Prod.fst) :
    (add_reading topic data ts st file).1.readings
        = updateAssoc topic (fun l => l ++ [data]) st.readings ∧
    (st.plot = false →
      (add_reading topic data ts st file).2.2.1
          = [Event.append topic data, Event.persist ts topic] ∧
      (add_reading topic data ts st file).2.2.2 = none) ∧
    (st.plot = true → data = "nan" →
      (add_reading topic data ts st file).2.2.1
          = [Event.append topic data, Event.persist ts topic] ∧
      (add_reading topic data ts st file).2.2.2 = none) ∧
    (st.plot = true → data ≠ "nan" →
      (add_reading topic data ts st file).2.2.1 = [Event.append topic data] ∧
      (add_reading topic data ts st file).2.1 = file ∧
      ∃ e, (add_reading topic data ts st file).2.2.2 = some e) := by
  refine ⟨?_, ?_, ?_, ?_⟩
  · rw [add_reading_readings, if_pos h]
  · intro hp
    constructor <;> simp [add_reading, h, hp]
  · intro hp hd
    subst hd
    constructor <;> simp [add_reading, h, hp, plot_reading]
  · intro hp hd
    cases hpl : st.plots with
    | none =>
      refine ⟨?_, ?_, PyError.attributeError "stations", ?_⟩ <;>
        simp [add_reading, h, hp, hd, plot_reading, hpl]
    | some u =>
      refine ⟨?_, ?_, PyError.attributeError "station", ?_⟩ <;>
        simp [add_reading, h, hp, hd, plot_reading, hpl]

/-- Witness for `add_reading_effects`: a concrete no-visualization call
emits the append followed by the persist. -/
theorem add_reading_effects_witness :
    (add_reading "stationA/temp" "7.5" "t1"
        (UserData.init ["stationA/temp"] false false 3) none).2.2.1
      = [Event.append "stationA/temp" "7.5", Event.persist "t1" "stationA/temp"] :=
  ((add_reading_effects "stationA/temp" "7.5" "t1"
      (UserData.init ["stationA/temp"] false false 3) none (by decide)).2.1 rfl).1

/-- C4: the spec says the loader reads each data line of the current
three-column `date,topic,data` schema as (timestamp, topic, value) directly
and skips malformed values.  The code instead zips `header[1:]` with
`data[1:]` (legacy wide format): under the current schema the candidate
"topics" are the header tokens, so a conforming log loads zero records
(first conjunct); a non-numeric value in a column whose header token is a
configured topic raises an uncaught `ValueError`, aborting the whole load
instead of being skipped (second conjunct); only wide-format logs with one
column per topic load anything (third conjunct). -/
theorem history_loader_mismatch :
    loadHistory ["stationA/temp"] 3
        ["date,topic,data\n", "2024-01-01 00:00:00,stationA/temp,21.5\n"]
      = .ok [("stationA/temp", ([], []))] ∧
    loadHistory ["stationA/temp"] 3 ["date,stationA/temp,x\n", "t1,abc,5\n"]
      = .error (PyError.valueError "abc") ∧
    loadHistory ["t"] 3 ["date,t,u\n", "a,1,2\n"] = .ok [("t", (["a"], ["1"]))] :=
  ⟨rfl, rfl, rfl⟩

/-- C5: the spec says every non-numeric raw value (including `"nan"`) is
skipped by the windowed update without crashing.  The code special-cases
only the literal `"nan"` (first conjunct); for any other value — here
`"abc"`, which indeed fails the float parse (third conjunct) — line 115
dereferences the never-assigned attribute `stations` and raises
`AttributeError` (second conjunct).  The `on_message` wrapper catches the
exception, so delivery continues, but the call aborted after the store
append: the reading was never persisted (fourth conjunct). -/
theorem plot_reading_crash :
    plot_reading "stationA/temp" "nan" (UserData.init ["stationA/temp"] false true 3)
        = .ok (UserData.init ["stationA/temp"] false true 3) ∧
    plot_reading "stationA/temp" "abc" (UserData.init ["stationA/temp"] false true 3)
        = .error (PyError.attributeError "stations") ∧
    pyFloatParses "abc" = false ∧
    on_message "stationA/temp" "abc" "t2"
        (UserData.init ["stationA/temp"] false true 3) none
      = ({ UserData.init ["stationA/temp"] false true 3 with
            readings := [("stationA/temp", ["abc"])] }, none) :=
  ⟨rfl, rfl, rfl, rfl⟩

/-- C6: starting from a non-existent log file, any nonempty sequence of
`appendRecord` calls yields a file whose first line is the single header
and whose remaining lines are the records in call order; every line is
three comma-joined fields with a trailing terminator. -/
theorem append_record_header_once (c : String × String × String)
    (cs : List (String × String × String)) :
    runAppends (c :: cs) none
        = some ("date,topic,data\n" :: (c :: cs).map recordLine) ∧
    ∀ line ∈ "date,topic,data\n" :: (c :: cs).map recordLine,
      ∃ a b d, line = a ++ "," ++ b ++ "," ++ d ++ "\n" := by
  constructor
  · show runAppends cs (some (appendRecord c.1 c.2.1 c.2.2 none)) = _
    rw [show appendRecord c.1 c.2.1 c.2.2 none = ["date,topic,data\n", recordLine c]
          from rfl,
        runAppends_some]
    rfl
  · intro line hl
    rcases List.mem_cons.mp hl with h | h
    · exact ⟨"date", "topic", "data", by rw [h]; decide⟩
    · obtain ⟨c', _, hc⟩ := List.mem_map.mp h
      exact ⟨c'.1, c'.2.1, c'.2.2, by rw [← hc]; rfl⟩

/-- C7 counterexample: with a configured window size of 0 the Python slice
`l[-0:]` keeps the whole list, so the loader's series grows past the
configured maximum — here to length 2 with N = 0. -/
theorem window_zero_counterexample :
    loadHistory ["t"] 0 ["date,t,u\n", "a,1,2\n", "b,3,4\n"]
        = .ok [("t", (["a", "b"], ["1", "3"]))] ∧
    ¬ (["a", "b"] : List String).length ≤ 0 :=
  ⟨rfl, by decide⟩

/-- C7 amended: for every POSITIVE window size N, the startup loader keeps
every topic's x and y series at length at most N (first conjunct), a full
window evicts exactly the oldest entry on append — strict FIFO (second
conjunct) — and the live plotting path never modifies any series at all (it
returns the state unchanged for `"nan"` and raises otherwise, so the bound
holds trivially there; third conjunct). -/
theorem window_bound_fifo (N : Nat) (topics : List String) (lines : List String)
    (hN : 0 < N) :
    (∀ dp, loadHistory topics N lines = .ok dp →
      ∀ p ∈ dp, p.2.1.length ≤ N ∧ p.2.2.length ≤ N) ∧
    (∀ (l : List String) (a : String), l.length = N →
      pyTakeLast N (l ++ [a]) = l.tail ++ [a]) ∧
    (∀ (topic data : String) (st st' : UserData),
      plot_reading topic data st = .ok st' → st' = st) := by
  refine ⟨?_, ?_, ?_⟩
  · intro dp hdp p hp
    have hinit : ∀ q ∈ defaultPlot topics,
        (q : String × (List String × List String)).2.1.length ≤ N ∧
          q.2.2.length ≤ N := by
      intro q hq
      obtain ⟨hx, hy⟩ := defaultPlot_mem hq
      rw [hx, hy]
      exact ⟨Nat.zero_le N, Nat.zero_le N⟩
    cases lines with
    | nil =>
      unfold loadHistory at hdp
      rw [← Except.ok.inj hdp] at hp
      exact hinit p hp
    | cons first rest =>
      exact loadLines_bound hN (pySplitComma first) rest (defaultPlot topics) dp
        hinit hdp p hp
  · intro l a hl
    exact pyTakeLast_full hN l a hl
  · intro topic data st st' h
    exact plot_reading_ok_eq h

/-- Witness for `window_bound_fifo`: a full window of size 2 drops exactly
its oldest entry when a third value arrives. -/
theorem window_bound_fifo_witness :
    pyTakeLast 2 (["a", "b"] ++ ["c"]) = ["b", "c"] :=
  (window_bound_fifo 2 ["t"] [] (by decide)).2.1 ["a", "b"] "c" (by decide)

/-- C8: `add_reading` on a topic absent from the configured store returns
before any effect: the state, the file, the event list and the exception
slot are all untouched. -/
theorem add_reading_unconfigured_noop (topic data ts : String) (st : UserData)
    (file : Option (List String)) (h : topic ∉ st.readings.map Prod.fst) :
    add_reading topic data ts st file = (st, file, [], none) := by
  simp [add_reading, h]

/-- Witness for `add_reading_unconfigured_noop` at a concrete unconfigured
topic. -/
theorem add_reading_unconfigured_noop_witness :
    add_reading "stationB/temp" "9" "t3"
        (UserData.init ["stationA/temp"] false false 3) none
      = (UserData.init ["stationA/temp"] false false 3, none, [], none) :=
  add_reading_unconfigured_noop "stationB/temp" "9" "t3"
    (UserData.init ["stationA/temp"] false false 3) none (by decide)

/-- C9: every `add_reading` call runs entirely under the single lock, so a
concurrent execution serializes into some global completion order; replaying
any such order, the stored sequence of a configured topic is exactly its
previous contents followed by the values of the calls addressed to it, in
order — no appends lost or duplicated, and the append count equals the call
count. -/
theorem store_appends_serialize (calls : List (String × String × String))
    (st : UserData) (file : Option (List String)) (t : String) (l0 : List String)
    (h : lookupAssoc t st.readings = some l0) :
    lookupAssoc t (runCalls calls (st, file)).1.readings
        = some (l0 ++ (calls.filter (fun c => c.1 == t)).map (fun c => c.2.1)) ∧
    (l0 ++ (calls.filter (fun c => c.1 == t)).map (fun c => c.2.1)).length
        = l0.length + (calls.filter (fun c => c.1 == t)).length := by
  constructor
  · induction calls generalizing st file l0 with
    | nil => simpa [runCalls] using h
    | cons c rest ih =>
      show lookupAssoc t (runCalls rest
          ((add_reading c.1 c.2.1 c.2.2 st file).1,
           (add_reading c.1 c.2.1 c.2.2 st file).2.1)).1.readings = _
      by_cases hc : c.1 ∈ st.readings.map Prod.fst
      · have hr : (add_reading c.1 c.2.1 c.2.2 st file).1.readings
            = updateAssoc c.1 (fun l => l ++ [c.2.1]) st.readings := by
          rw [add_reading_readings, if_pos hc]
        by_cases het : c.1 = t
        · subst het
          have h1 : lookupAssoc c.1 (add_reading c.1 c.2.1 c.2.2 st file).1.readings
              = some (l0 ++ [c.2.1]) := by
            rw [hr, lookupAssoc_updateAssoc_self, h]
            rfl
          rw [ih _ _ _ h1]
          simp [List.filter_cons, List.append_assoc]
        · have h1 : lookupAssoc t (add_reading c.1 c.2.1 c.2.2 st file).1.readings
              = some l0 := by
            rw [hr, lookupAssoc_updateAssoc_ne (fun he => het he.symm), h]
          rw [ih _ _ _ h1]
          have hbe : (c.1 == t) = false := by
            simp [het]
          simp [List.filter_cons, hbe]
      · have hne : c.1 ≠ t := fun he => hc (he ▸ mem_keys_of_lookupAssoc h)
        have hskip : add_reading c.1 c.2.1 c.2.2 st file = (st, file, [], none) :=
          add_reading_skip _ _ _ hc
        rw [hskip]
        have h1 : lookupAssoc t (st, file, ([] : List Event),
            (none : Option PyError)).1.readings = some l0 := h
        rw [ih _ _ _ h1]
        have hbe : (c.1 == t) = false := by
          simp [hne]
        simp [List.filter_cons, hbe]
  · simp

/-- Witness for `store_appends_serialize`: three interleaved calls on two
configured topics leave topic `a` with exactly its two values in call
order. -/
theorem store_appends_serialize_witness :
    lookupAssoc "a" (runCalls [("a", "1", "t1"), ("b", "2", "t2"), ("a", "3", "t3")]
        (UserData.init ["a", "b"] false false 5, none)).1.readings
      = some ["1", "3"] :=
  (store_appends_serialize [("a", "1", "t1"), ("b", "2", "t2"), ("a", "3", "t3")]
    (UserData.init ["a", "b"] false false 5) none "a" [] (by decide)).1

/-- C10: in the final class dict the `last_connected` property has no setter
— its setter function was bound to the name `connected` — so assigning
`last_connected` raises `AttributeError`; and assigning `connected` writes
the backing field `_last_connected` while leaving `_connected` unchanged. -/
theorem property_name_collision (st : UserData) (v : Bool) :
    userDataClassDict.last_connected.fset = none ∧
    setLastConnected st v = .error (PyError.attributeError "last_connected") ∧
    setConnected st v = .ok { st with _last_connected := v } ∧
    ∀ st', setConnected st v = .ok st' → st'._connected = st._connected := by
  refine ⟨rfl, rfl, rfl, ?_⟩
  intro st' h
  have h' : (Except.ok { st with _last_connected := v } : Except PyError UserData)
      = .ok st' := by
    rw [← h]
    rfl
  rw [← Except.ok.inj h']
